import Mathlib

/-!
Verification of the TickTickBot browser client (`src/static/script.js`).

The client keeps two pieces of mutable state: `tasks` (an array of task
objects mirrored from the server) and `deletedTask` (the most recently
deleted task, cached for a single-level undo).  Every operation is an
exchange with the REST backend followed by DOM re-rendering.  We embed the
client shallowly: each JavaScript function becomes a pure Lean function
from its inputs, the server's response (an explicit parameter, `none`
modelling a transport/parse failure that lands in the `catch` block) and
the current state, to the new state together with a `Trace` of the
observable effects: network requests issued, toast notifications shown,
chat messages appended, and which render routines ran.

DOM-specific details that no statement depends on (locale formatting of
dates via `toLocaleDateString`/`toLocaleTimeString`, clearing of input
fields, scroll position) are elided; everything that decides control flow
is modelled faithfully, including JavaScript truthiness (`""`, `0` and
`null`/`undefined` are falsy).
-/

namespace TickTick

/-- A task object as stored in the client's `tasks` array.  `reminder` is
`none` for JavaScript `null`/absent. -/
structure Task where
  id : Int
  description : String
  completed : Bool
  reminder : Option String
deriving Repr, DecidableEq

/-- The ordering used by `tasks.sort((a, b) => a.id - b.id)`. -/
def taskLE (a b : Task) : Prop := a.id ≤ b.id

instance : DecidableRel taskLE := fun a b => inferInstanceAs (Decidable (a.id ≤ b.id))

instance : IsTotal Task taskLE := ⟨fun a b => Int.le_total a.id b.id⟩

instance : IsTrans Task taskLE := ⟨fun _ _ _ h1 h2 => le_trans h1 h2⟩

/-- `tasks.sort((a, b) => a.id - b.id)`: sorting the array in place by
ascending id, modelled by a stable sort with respect to `taskLE`. -/
def sortTasks (ts : List Task) : List Task := List.insertionSort taskLE ts

/-- The module-scope mutable state of the client: the `tasks` array and the
`deletedTask` snapshot (`null` modelled as `none`). -/
structure ClientState where
  tasks : List Task
  deletedTask : Option Task
deriving Repr, DecidableEq

/-- One row of the rendered task list: `renderTasks` displays
`${index+1}. ${task.description}` with a completion indicator, and wires the
row's buttons to the task's real `id`. -/
structure TaskRow where
  ordinal : Nat
  id : Int
  description : String
  completed : Bool
deriving Repr, DecidableEq

/-- The `tasks.forEach((task, index) => ...)` loop body of `renderTasks`,
carrying the running index. -/
def rowsFrom (i : Nat) : List Task → List TaskRow
  | [] => []
  | t :: ts => TaskRow.mk (i + 1) t.id t.description t.completed :: rowsFrom (i + 1) ts

/-- `renderTasks()`: sorts the `tasks` array in place by ascending id and
renders one row per task showing the 1-based index.  Returns the rendered
rows and the (sorted) array after the in-place mutation. -/
def renderTasks (ts : List Task) : List TaskRow × List Task :=
  (rowsFrom 0 (sortTasks ts), sortTasks ts)

/-- The three summary counters written by `updateOverview`. -/
structure Overview where
  total : Nat
  completed : Nat
  pending : Nat
deriving Repr, DecidableEq

/-- `updateOverview()`: recomputes `tasks.length`,
`tasks.filter(t => t.completed).length` and
`tasks.filter(t => !t.completed).length` from the current array. -/
def updateOverview (ts : List Task) : Overview :=
  Overview.mk ts.length (ts.filter (fun t => t.completed)).length
    (ts.filter (fun t => !t.completed)).length

/-- JavaScript truthiness of `task.reminder`: `null` (here `none`) and the
empty string are falsy. -/
def reminderTruthy (t : Task) : Bool :=
  match t.reminder with
  | none => false
  | some s => s != ""

/-- A calendar marker as added by `calendar.addEvent({id: String(task.id),
start: task.reminder, display: 'background'})`. -/
structure CalEvent where
  id : String
  start : String
deriving Repr, DecidableEq

/-- `renderCalendar()`: after `calendar.removeAllEvents()` the event set is
rebuilt from scratch, adding one marker per task whose `reminder` is truthy;
the returned list is the complete post-render event set in insertion
order. -/
def renderCalendar : List Task → List CalEvent
  | [] => []
  | t :: ts =>
    match t.reminder with
    | some s => if s != "" then CalEvent.mk (toString t.id) s :: renderCalendar ts
                else renderCalendar ts
    | none => renderCalendar ts

/-- The filter `t => t.reminder && t.reminder.startsWith(dateStr)` used by
`showDayTasks`. -/
def dayMatch (dateStr : String) (t : Task) : Bool :=
  match t.reminder with
  | none => false
  | some s => s != "" && s.startsWith dateStr

/-- `showDayTasks(dateStr)`: the tasks listed for a clicked calendar day, in
current array order.  (The DOM lines additionally carry a 1-based index and
a locale-formatted time, which we elide.) -/
def showDayTasks (ts : List Task) (dateStr : String) : List Task :=
  ts.filter (dayMatch dateStr)

/-- A PATCH body: each field is present (`some`) or absent, mirroring the
partial task objects sent to and returned from `/tasks/{id}`.  The
`reminder` field, when present, carries an `Option String` because the
client sends an explicit `null` to clear a reminder. -/
structure TaskPatch where
  id : Option Int
  description : Option String
  completed : Option Bool
  reminder : Option (Option String)
deriving Repr, DecidableEq

/-- `Object.assign(task, data.task)`: fields present in the response
overwrite the local task's fields, absent fields are preserved. -/
def mergeTask (t : Task) (p : TaskPatch) : Task :=
  Task.mk (p.id.getD t.id) (p.description.getD t.description)
    (p.completed.getD t.completed) (p.reminder.getD t.reminder)

/-- A network request issued through `fetch`. -/
inductive Request where
  | getTasks
  | postTask (description : String) (reminder : Option String)
  | patchTask (id : Int) (body : TaskPatch)
  | deleteTask (id : Int)
  | undoDelete
  | reset
deriving Repr, DecidableEq

/-- Response to `POST /tasks` and `POST /tasks/undo-delete`:
`{ok, task}`. -/
structure PostResp where
  ok : Bool
  task : Task
deriving Repr, DecidableEq

/-- Response to `PATCH /tasks/{id}`: `{ok, task}` with a (possibly partial)
task object. -/
structure PatchResp where
  ok : Bool
  task : TaskPatch
deriving Repr, DecidableEq

/-- Response to `DELETE /tasks/{id}` and `DELETE /tasks/reset`: `{ok}`. -/
structure OkResp where
  ok : Bool
deriving Repr, DecidableEq

/-- Which render routine ran, in order. -/
inductive RenderEvent where
  | list
  | calendar
  | overview
deriving Repr, DecidableEq

/-- The observable effects of one operation: `fetch` requests issued,
`showToast` notifications, `appendMessage` chat lines, and render-routine
invocations, each in program order. -/
structure Trace where
  requests : List Request
  toasts : List String
  msgs : List String
  renders : List RenderEvent
deriving Repr, DecidableEq

def Trace.app (a b : Trace) : Trace :=
  Trace.mk (a.requests ++ b.requests) (a.toasts ++ b.toasts) (a.msgs ++ b.msgs)
    (a.renders ++ b.renders)

instance : Append Trace := ⟨Trace.app⟩

@[simp] theorem Trace.app_requests (a b : Trace) :
    (a ++ b).requests = a.requests ++ b.requests := rfl

@[simp] theorem Trace.app_toasts (a b : Trace) :
    (a ++ b).toasts = a.toasts ++ b.toasts := rfl

@[simp] theorem Trace.app_msgs (a b : Trace) :
    (a ++ b).msgs = a.msgs ++ b.msgs := rfl

@[simp] theorem Trace.app_renders (a b : Trace) :
    (a ++ b).renders = a.renders ++ b.renders := rfl

/-- The empty trace (an operation that returned before doing anything). -/
def Trace.none : Trace := Trace.mk [] [] [] []

/-- The `renderTasks(); renderCalendar(); updateOverview();` tail shared by
the successful mutation paths. -/
def renderAllEvents : List RenderEvent :=
  [RenderEvent.list, RenderEvent.calendar, RenderEvent.overview]

/-- `addTask(description, reminder)`: returns at once if `description` is
falsy (the empty string — note the argument is NOT trimmed here); otherwise
POSTs `{description, reminder}` and, on an `ok` response, pushes the
returned task and re-renders (which sorts the array in place). -/
def addTask (description : String) (reminder : Option String)
    (resp : Option PostResp) (st : ClientState) : ClientState × Trace :=
  if description = "" then (st, Trace.none)
  else
    match resp with
    | Option.none =>
      (st, Trace.mk [Request.postTask description reminder] ["Failed to add task"] [] [])
    | some r =>
      if r.ok then
        (ClientState.mk (sortTasks (st.tasks ++ [r.task])) st.deletedTask,
         Trace.mk [Request.postTask description reminder] ["Task added"] [] renderAllEvents)
      else (st, Trace.mk [Request.postTask description reminder] [] [] [])

/-- `String.prototype.trim()`: strips leading and trailing whitespace,
modelled over the character list so that it evaluates by kernel
reduction. -/
def jsTrim (s : String) : String :=
  String.mk ((s.data.dropWhile Char.isWhitespace).reverse.dropWhile Char.isWhitespace).reverse

/-- `addTaskFromUI()`: trims the description input, rejects a blank one with
a toast, merges the date and time inputs into one timestamp (time defaults
to `00:00`; no date means no reminder) and delegates to `addTask`.  Clearing
of the three input fields is a DOM effect we elide. -/
def addTaskFromUI (rawDesc date time : String) (resp : Option PostResp)
    (st : ClientState) : ClientState × Trace :=
  let desc := jsTrim rawDesc
  if desc = "" then (st, Trace.mk [] ["Enter task description"] [] [])
  else
    let reminder := if date = "" then Option.none
                    else some (if time = "" then date ++ "T00:00" else date ++ "T" ++ time)
    addTask desc reminder resp st

/-- `toggleComplete(id)`: no-op if no task has this id; otherwise PATCHes
the negation of the task's `completed` flag and, on an `ok` response,
merges the response task into the found task object and re-renders the list
and counters (not the calendar). -/
def toggleComplete (id : Int) (resp : Option PatchResp) (st : ClientState) :
    ClientState × Trace :=
  match st.tasks.find? (fun t => t.id == id) with
  | Option.none => (st, Trace.none)
  | some task =>
    let req := Request.patchTask id (TaskPatch.mk Option.none Option.none (some (!task.completed)) Option.none)
    match resp with
    | Option.none => (st, Trace.mk [req] [] [] [])
    | some r =>
      if r.ok then
        (ClientState.mk
          (sortTasks (st.tasks.map (fun t => if t.id == id then mergeTask t r.task else t)))
          st.deletedTask,
         Trace.mk [req] [] [] [RenderEvent.list, RenderEvent.overview])
      else (st, Trace.mk [req] [] [] [])

/-- `editTask(id)`: no-op if the id is unknown; `newDesc = none` models a
cancelled description prompt (which aborts the edit); a blank reminder
prompt answer is sent as `null` (`newReminder || null`).  On an `ok`
response the response task is merged in and everything re-renders. -/
def editTask (id : Int) (newDesc : Option String) (newReminder : Option String)
    (resp : Option PatchResp) (st : ClientState) : ClientState × Trace :=
  match st.tasks.find? (fun t => t.id == id) with
  | Option.none => (st, Trace.none)
  | some _ =>
    match newDesc with
    | Option.none => (st, Trace.none)
    | some nd =>
      let rem : Option String :=
        match newReminder with
        | Option.none => Option.none
        | some "" => Option.none
        | some s => some s
      let req := Request.patchTask id (TaskPatch.mk Option.none (some (jsTrim nd)) Option.none (some rem))
      match resp with
      | Option.none => (st, Trace.mk [req] [] [] [])
      | some r =>
        if r.ok then
          (ClientState.mk
            (sortTasks (st.tasks.map (fun t => if t.id == id then mergeTask t r.task else t)))
            st.deletedTask,
           Trace.mk [req] ["Task updated"] [] renderAllEvents)
        else (st, Trace.mk [req] [] [] [])

/-- `deleteTask(id)`: no-op if the id is unknown; otherwise snapshots the
task into `deletedTask` (a shallow copy, `{...task}`) BEFORE issuing the
DELETE request, so the snapshot is kept even when the request fails; on an
`ok` response removes every task with this id from the array and
re-renders. -/
def deleteTask (id : Int) (resp : Option OkResp) (st : ClientState) :
    ClientState × Trace :=
  match st.tasks.find? (fun t => t.id == id) with
  | Option.none => (st, Trace.none)
  | some task =>
    match resp with
    | Option.none => (ClientState.mk st.tasks (some task), Trace.mk [Request.deleteTask id] [] [] [])
    | some r =>
      if r.ok then
        (ClientState.mk (sortTasks (st.tasks.filter (fun t => !(t.id == id)))) (some task),
         Trace.mk [Request.deleteTask id] ["Task deleted"] [] renderAllEvents)
      else (ClientState.mk st.tasks (some task), Trace.mk [Request.deleteTask id] [] [] [])

/-- `undoDelete()`: if `deletedTask` is null, shows the "Nothing to undo"
toast and returns without any request; otherwise POSTs to
`/tasks/undo-delete` and, on an `ok` response, pushes the returned task,
re-renders and clears `deletedTask`. -/
def undoDelete (resp : Option PostResp) (st : ClientState) : ClientState × Trace :=
  match st.deletedTask with
  | Option.none => (st, Trace.mk [] ["Nothing to undo"] [] [])
  | some _ =>
    match resp with
    | Option.none => (st, Trace.mk [Request.undoDelete] [] [] [])
    | some r =>
      if r.ok then
        (ClientState.mk (sortTasks (st.tasks ++ [r.task])) Option.none,
         Trace.mk [Request.undoDelete] ["Restored last deleted task"] [] renderAllEvents)
      else (st, Trace.mk [Request.undoDelete] [] [] [])

/-- `resetTasks()`: returns at once unless the user confirms; otherwise
DELETEs `/tasks/reset` and, on an `ok` response, empties the local array
and re-renders.  `deletedTask` is not touched. -/
def resetTasks (confirmed : Bool) (resp : Option OkResp) (st : ClientState) :
    ClientState × Trace :=
  if !confirmed then (st, Trace.none)
  else
    match resp with
    | Option.none => (st, Trace.mk [Request.reset] [] [] [])
    | some r =>
      if r.ok then
        (ClientState.mk [] st.deletedTask,
         Trace.mk [Request.reset] ["All tasks cleared"] [] renderAllEvents)
      else (st, Trace.mk [Request.reset] [] [] [])

/-- `getTaskIdByNumber(number)`: translates a 1-based display number into
the task's real id via the current array position; returns `null` when the
index is out of range. -/
def getTaskIdByNumber (ts : List Task) (number : Int) : Option Int :=
  let idx := number - 1
  if idx < 0 ∨ (ts.length : Int) ≤ idx then Option.none
  else (ts.get? idx.toNat).map Task.id

/-- `args.task_number || args.task_id`: JavaScript `||` keeps the left
operand when it is truthy (a number other than `0`); otherwise it yields
the right operand, whatever it is (`none` models `undefined`). -/
def jsOrNum (a b : Option Int) : Option Int :=
  match a with
  | some v => if v = 0 then b else some v
  | Option.none => b

/-- The assistant's action envelope (`data.result`): either a plain reply
with no `function` field, one of the six known function names with its
arguments, or an unknown function name (the `default` case). -/
inductive ChatAction where
  | plain (reply : Option String)
  | addTask (description : String) (reminder : Option String)
  | viewTasks
  | completeTask (taskNumber taskId : Option Int)
  | deleteTask (taskNumber taskId : Option Int)
  | undoDelete
  | resetAll
  | unknown (reply : Option String)
deriving Repr, DecidableEq

/-- The server's and user's answers consumed while one chat action runs:
one response slot per endpoint (`none` = transport failure) and the answer
to the `confirm` dialog raised by `resetTasks`. -/
structure ServerOracle where
  post : Option PostResp
  patch : Option PatchResp
  delete : Option OkResp
  undo : Option PostResp
  reset : Option OkResp
  confirmReset : Bool
deriving Repr, DecidableEq

/-- `if (action.reply) appendMessage(action.reply, "ai")`: an absent or
empty (falsy) reply appends nothing. -/
def replyMsgs (reply : Option String) : List String :=
  match reply with
  | Option.none => []
  | some s => if s = "" then [] else [s]

/-- The `// Update UI after every action` tail of `handleChatAction`:
`renderTasks(); renderCalendar(); updateOverview();` — the list render
sorts the array in place. -/
def finishRender (st : ClientState) (tr : Trace) : ClientState × Trace :=
  (ClientState.mk (sortTasks st.tasks) st.deletedTask,
   tr ++ Trace.mk [] [] [] renderAllEvents)

/-- The warning produced for a falsy resolved id (`if (!realId) return ...`). -/
def invalidTaskMsg : String := "⚠️ Invalid task number."

/-- `handleChatAction(action)`: dispatches the envelope.  A missing
`function` field only appends the reply, if truthy.  The six known
functions run the corresponding operation and append a confirmation
message, then the list, calendar and counters are re-rendered — except that
`completeTask`/`deleteTask` return early (no re-render) when the resolved
id is falsy (`null` for an out-of-range number, or a real id equal to `0`).
When both `task_number` and `task_id` are absent, `tasks[NaN].id` throws a
`TypeError` which the surrounding `catch` turns into a `⚠️` chat message
(its exact text is engine-specific; we use a fixed marker string). -/
def handleChatAction (action : ChatAction) (o : ServerOracle) (st : ClientState) :
    ClientState × Trace :=
  match action with
  | ChatAction.plain reply => (st, Trace.mk [] [] (replyMsgs reply) [])
  | ChatAction.addTask d r =>
    let res := addTask d r o.post st
    finishRender res.1 (res.2 ++ Trace.mk [] [] ["✅ Added task: " ++ d] [])
  | ChatAction.viewTasks =>
    let msgs := if st.tasks.length = 0 then ["📋 No tasks yet."]
      else (rowsFrom 0 st.tasks).map (fun row => toString row.ordinal ++ ". " ++ row.description)
    finishRender st (Trace.mk [] [] msgs [])
  | ChatAction.completeTask tn tid =>
    match jsOrNum tn tid with
    | Option.none => (st, Trace.mk [] [] ["⚠️ TypeError"] [])
    | some n =>
      match getTaskIdByNumber st.tasks n with
      | Option.none => (st, Trace.mk [] [] [invalidTaskMsg] [])
      | some realId =>
        if realId = 0 then (st, Trace.mk [] [] [invalidTaskMsg] [])
        else
          let res := toggleComplete realId o.patch st
          finishRender res.1
            (res.2 ++ Trace.mk [] [] ["✅ Toggled completion of task #" ++ toString n] [])
  | ChatAction.deleteTask tn tid =>
    match jsOrNum tn tid with
    | Option.none => (st, Trace.mk [] [] ["⚠️ TypeError"] [])
    | some n =>
      match getTaskIdByNumber st.tasks n with
      | Option.none => (st, Trace.mk [] [] [invalidTaskMsg] [])
      | some realId =>
        if realId = 0 then (st, Trace.mk [] [] [invalidTaskMsg] [])
        else
          let res := deleteTask realId o.delete st
          finishRender res.1
            (res.2 ++ Trace.mk [] [] ["🗑 Deleted task #" ++ toString n] [])
  | ChatAction.undoDelete =>
    let res := undoDelete o.undo st
    finishRender res.1 (res.2 ++ Trace.mk [] [] ["♻️ Restored last deleted task"] [])
  | ChatAction.resetAll =>
    let res := resetTasks o.confirmReset o.reset st
    finishRender res.1 (res.2 ++ Trace.mk [] [] ["🗑 Cleared all tasks"] [])
  | ChatAction.unknown reply =>
    finishRender st (Trace.mk [] [] (replyMsgs reply) [])

/-- The envelope carries one of the six known function names. -/
def knownFn : ChatAction → Bool
  | ChatAction.plain _ => false
  | ChatAction.unknown _ => false
  | _ => true

/-- A `completeTask`/`deleteTask` action is abandoned before its operation
runs: the coalesced task number is absent, or the resolved id is falsy. -/
def chatAbandoned (a : ChatAction) (st : ClientState) : Bool :=
  match a with
  | ChatAction.completeTask tn tid =>
    (match jsOrNum tn tid with
     | Option.none => true
     | some n =>
       match getTaskIdByNumber st.tasks n with
       | Option.none => true
       | some realId => realId == 0)
  | ChatAction.deleteTask tn tid =>
    (match jsOrNum tn tid with
     | Option.none => true
     | some n =>
       match getTaskIdByNumber st.tasks n with
       | Option.none => true
       | some realId => realId == 0)
  | _ => false

/-! Concrete sample values used by the witness and counterexample
theorems. -/

/-- A sample task with a reminder. -/
def sampleTask : Task := Task.mk 1 "Buy milk" false (some "2024-03-01T09:00")

/-- A sample task with id `0` and no reminder. -/
def zeroIdTask : Task := Task.mk 0 "Zero" false Option.none

/-- A sample state holding only `sampleTask`. -/
def sampleState : ClientState := ClientState.mk [sampleTask] Option.none

/-- An oracle in which every endpoint fails at the transport level and the
reset confirmation is declined. -/
def failOracle : ServerOracle :=
  ServerOracle.mk Option.none Option.none Option.none Option.none Option.none false

/-! Helper lemmas about the rendering functions. -/

theorem rowsFrom_length (i : Nat) (l : List Task) : (rowsFrom i l).length = l.length := by
  induction l generalizing i with
  | nil => rfl
  | cons t ts ih => simp [rowsFrom, ih]

theorem rowsFrom_map_ordinal (i : Nat) (l : List Task) :
    (rowsFrom i l).map TaskRow.ordinal = List.range' (i + 1) l.length := by
  induction l generalizing i with
  | nil => rfl
  | cons t ts ih => simp [rowsFrom, List.range', ih]

theorem rowsFrom_map_id (i : Nat) (l : List Task) :
    (rowsFrom i l).map TaskRow.id = l.map Task.id := by
  induction l generalizing i with
  | nil => rfl
  | cons t ts ih => simp [rowsFrom, ih]

theorem sortTasks_sorted (ts : List Task) : List.Sorted taskLE (sortTasks ts) :=
  List.sorted_insertionSort taskLE ts

/-- C3: after every render (of any reachable `tasks` array, hence after any
sequence of create/toggle/edit/delete operations), the rendered rows are
sorted by ascending task id, and the displayed ordinals are exactly
`1, 2, …, n` — each row's ordinal is its 1-based rank in the sorted order,
not the task's id. -/
theorem renderTasks_sorted_and_ranked (ts : List Task) :
    List.Sorted (fun x y : Int => x ≤ y) ((renderTasks ts).1.map TaskRow.id) ∧
    (renderTasks ts).1.map TaskRow.ordinal = List.range' 1 (renderTasks ts).1.length := by
  constructor
  · show List.Sorted _ ((rowsFrom 0 (sortTasks ts)).map TaskRow.id)
    rw [rowsFrom_map_id]
    exact (List.pairwise_map).mpr (sortTasks_sorted ts)
  · show (rowsFrom 0 (sortTasks ts)).map TaskRow.ordinal =
      List.range' 1 (rowsFrom 0 (sortTasks ts)).length
    rw [rowsFrom_map_ordinal, rowsFrom_length]

/-- C4: after every render the summary counters satisfy
`total = completed + pending`, and equal the array length, the number of
completed tasks and the number of pending tasks respectively; they are a
pure function of the current array (recomputed, never cached). -/
theorem updateOverview_counters (ts : List Task) :
    (updateOverview ts).total = (updateOverview ts).completed + (updateOverview ts).pending ∧
    (updateOverview ts).total = ts.length ∧
    (updateOverview ts).completed = (ts.filter (fun t => t.completed)).length ∧
    (updateOverview ts).pending = (ts.filter (fun t => !t.completed)).length := by
  refine ⟨?_, rfl, rfl, rfl⟩
  exact List.length_eq_length_filter_add (fun t : Task => t.completed)

/-- C6: whenever `deleteTask id` finds a task with this id, the snapshot is
stored into `deletedTask` before the DELETE request goes out: for every
server response — including a transport failure and an `{ok: false}` reply —
the request is issued and `deletedTask` holds the snapshot afterwards; on an
`{ok: true}` reply the task is additionally removed from the local array. -/
theorem deleteTask_snapshot_before_request (id : Int) (st : ClientState) (t : Task)
    (hf : st.tasks.find? (fun u => u.id == id) = some t) :
    (∀ resp, (deleteTask id resp st).1.deletedTask = some t ∧
      (deleteTask id resp st).2.requests = [Request.deleteTask id]) ∧
    (∀ r : OkResp, r.ok = true →
      (deleteTask id (some r) st).1.tasks =
        sortTasks (st.tasks.filter (fun u => !(u.id == id)))) := by
  constructor
  · intro resp
    cases resp with
    | none => simp [deleteTask, hf]
    | some r =>
      by_cases hr : r.ok
      · simp [deleteTask, hf, hr]
      · simp [deleteTask, hf, hr]
  · intro r hr
    simp [deleteTask, hf, hr]

theorem deleteTask_snapshot_before_request_witness :
    sampleState.tasks.find? (fun u => u.id == 1) = some sampleTask ∧
    ((∀ resp, (deleteTask 1 resp sampleState).1.deletedTask = some sampleTask ∧
        (deleteTask 1 resp sampleState).2.requests = [Request.deleteTask 1]) ∧
      (∀ r : OkResp, r.ok = true →
        (deleteTask 1 (some r) sampleState).1.tasks =
          sortTasks (sampleState.tasks.filter (fun u => !(u.id == 1))))) :=
  ⟨by decide, deleteTask_snapshot_before_request 1 sampleState sampleTask (by decide)⟩

/-- C7: calling `undoDelete` while `deletedTask` is empty shows the
"Nothing to undo" notification and returns: no request is issued and the
state is unchanged, whatever the server would have answered. -/
theorem undoDelete_empty_notice_no_request (resp : Option PostResp) (st : ClientState)
    (hd : st.deletedTask = Option.none) :
    undoDelete resp st = (st, Trace.mk [] ["Nothing to undo"] [] []) := by
  simp [undoDelete, hd]

theorem undoDelete_empty_notice_no_request_witness :
    sampleState.deletedTask = Option.none ∧
    undoDelete Option.none sampleState = (sampleState, Trace.mk [] ["Nothing to undo"] [] []) :=
  ⟨rfl, undoDelete_empty_notice_no_request Option.none sampleState rfl⟩

/-- C9: `resetTasks` never touches `deletedTask` (for any confirmation
answer and any response), and after a confirmed successful reset the tasks
array is empty while a previously cached deletion survives: a subsequent
`undoDelete` still issues the restoration request instead of reporting that
there is nothing to undo. -/
theorem resetTasks_preserves_deletedTask (st : ClientState) (t : Task)
    (ht : st.deletedTask = some t) :
    (∀ (c : Bool) (resp : Option OkResp),
      (resetTasks c resp st).1.deletedTask = st.deletedTask) ∧
    (∀ r : OkResp, r.ok = true →
      (resetTasks true (some r) st).1.tasks = [] ∧
      (∀ resp2, (undoDelete resp2 (resetTasks true (some r) st).1).2.requests = [Request.undoDelete] ∧
        (undoDelete resp2 (resetTasks true (some r) st).1).2.toasts ≠ ["Nothing to undo"])) := by
  constructor
  · intro c resp
    cases c with
    | false => simp [resetTasks]
    | true =>
      cases resp with
      | none => simp [resetTasks]
      | some r =>
        by_cases hr : r.ok
        · simp [resetTasks, hr]
        · simp [resetTasks, hr]
  · intro r hr
    refine ⟨by simp [resetTasks, hr], ?_⟩
    intro resp2
    have hst : (resetTasks true (some r) st).1 = ClientState.mk [] st.deletedTask := by
      simp [resetTasks, hr]
    rw [hst]
    cases resp2 with
    | none => simp [undoDelete, ht]
    | some r2 =>
      by_cases hr2 : r2.ok
      · simp [undoDelete, ht, hr2]
      · simp [undoDelete, ht, hr2]

theorem resetTasks_preserves_deletedTask_witness :
    (ClientState.mk [] (some sampleTask)).deletedTask = some sampleTask ∧
    ((∀ (c : Bool) (resp : Option OkResp),
        (resetTasks c resp (ClientState.mk [] (some sampleTask))).1.deletedTask =
          (ClientState.mk [] (some sampleTask)).deletedTask) ∧
      (∀ r : OkResp, r.ok = true →
        (resetTasks true (some r) (ClientState.mk [] (some sampleTask))).1.tasks = [] ∧
        (∀ resp2,
          (undoDelete resp2 (resetTasks true (some r) (ClientState.mk [] (some sampleTask))).1).2.requests =
            [Request.undoDelete] ∧
          (undoDelete resp2 (resetTasks true (some r) (ClientState.mk [] (some sampleTask))).1).2.toasts ≠
            ["Nothing to undo"]))) :=
  ⟨rfl, resetTasks_preserves_deletedTask (ClientState.mk [] (some sampleTask)) sampleTask rfl⟩

/-! Calendar lemmas. -/

theorem renderCalendar_eq (ts : List Task) :
    renderCalendar ts = (ts.filter reminderTruthy).map
      (fun t => CalEvent.mk (toString t.id) (t.reminder.getD "")) := by
  induction ts with
  | nil => rfl
  | cons t ts ih =>
    cases hr : t.reminder with
    | none => simp [renderCalendar, reminderTruthy, hr, ih]
    | some s =>
      by_cases hs : s = ""
      · subst hs; simp [renderCalendar, reminderTruthy, hr, ih]
      · simp [renderCalendar, reminderTruthy, hr, hs, ih]

theorem reminderTruthy_some (t : Task) (h : reminderTruthy t = true) :
    t.reminder = some (t.reminder.getD "") := by
  cases hr : t.reminder with
  | none => rw [reminderTruthy, hr] at h; cases h
  | some s => simp [hr]

/-- C8: on every calendar render the event set is rebuilt from scratch with
exactly one marker per task whose reminder is present (truthy), carrying the
task's id and the reminder timestamp as its start (hence placed on the
reminder's date); and clicking a day shows exactly the tasks whose reminder
string-prefix-matches the clicked date, in array order — ascending-id order,
since the array is sorted whenever the user can click. -/
theorem renderCalendar_markers_and_dayTasks (ts : List Task) (d : String)
    (hsorted : List.Sorted taskLE ts) :
    (renderCalendar ts).length = (ts.filter reminderTruthy).length ∧
    (∀ t ∈ ts, reminderTruthy t = true →
      CalEvent.mk (toString t.id) (t.reminder.getD "") ∈ renderCalendar ts) ∧
    (∀ e ∈ renderCalendar ts, ∃ t, t ∈ ts ∧ reminderTruthy t = true ∧
      e.id = toString t.id ∧ t.reminder = some e.start) ∧
    (∀ t, t ∈ showDayTasks ts d ↔ t ∈ ts ∧ ∃ s, t.reminder = some s ∧ s ≠ "" ∧
      s.startsWith d = true) ∧
    List.Sorted taskLE (showDayTasks ts d) := by
  refine ⟨?_, ?_, ?_, ?_, ?_⟩
  · rw [renderCalendar_eq, List.length_map]
  · intro t ht htr
    rw [renderCalendar_eq]
    exact List.mem_map_of_mem _ (List.mem_filter.mpr ⟨ht, htr⟩)
  · intro e he
    rw [renderCalendar_eq] at he
    obtain ⟨t, htf, rfl⟩ := List.mem_map.mp he
    obtain ⟨ht, htr⟩ := List.mem_filter.mp htf
    exact ⟨t, ht, htr, rfl, reminderTruthy_some t htr⟩
  · intro t
    rw [showDayTasks, List.mem_filter]
    constructor
    · rintro ⟨ht, hm⟩
      refine ⟨ht, ?_⟩
      cases hr : t.reminder with
      | none => rw [dayMatch, hr] at hm; cases hm
      | some s =>
        rw [dayMatch, hr, Bool.and_eq_true] at hm
        exact ⟨s, rfl, by simpa using hm.1, hm.2⟩
    · rintro ⟨ht, s, hr, hne, hpre⟩
      refine ⟨ht, ?_⟩
      rw [dayMatch, hr, Bool.and_eq_true]
      exact ⟨by simpa using hne, hpre⟩
  · exact hsorted.filter _

theorem renderCalendar_markers_and_dayTasks_witness :
    List.Sorted taskLE [sampleTask] ∧
    ((renderCalendar [sampleTask]).length = ([sampleTask].filter reminderTruthy).length ∧
      (∀ t ∈ [sampleTask], reminderTruthy t = true →
        CalEvent.mk (toString t.id) (t.reminder.getD "") ∈ renderCalendar [sampleTask]) ∧
      (∀ e ∈ renderCalendar [sampleTask], ∃ t, t ∈ [sampleTask] ∧ reminderTruthy t = true ∧
        e.id = toString t.id ∧ t.reminder = some e.start) ∧
      (∀ t, t ∈ showDayTasks [sampleTask] "2024-03-01" ↔ t ∈ [sampleTask] ∧
        ∃ s, t.reminder = some s ∧ s ≠ "" ∧ s.startsWith "2024-03-01" = true) ∧
      List.Sorted taskLE (showDayTasks [sampleTask] "2024-03-01")) :=
  ⟨List.sorted_singleton sampleTask,
   renderCalendar_markers_and_dayTasks [sampleTask] "2024-03-01"
     (List.sorted_singleton sampleTask)⟩

/-! Chat number-to-id translation lemmas. -/

theorem getTaskIdByNumber_out_of_range (ts : List Task) (n : Int)
    (h : (ts.length : Int) < n ∨ n ≤ 0) : getTaskIdByNumber ts n = Option.none := by
  simp only [getTaskIdByNumber]
  rw [if_pos (by omega)]

theorem getTaskIdByNumber_in_range (ts : List Task) (n : Int) (t : Task)
    (h1 : 1 ≤ n) (h2 : ts.get? (n - 1).toNat = some t) :
    getTaskIdByNumber ts n = some t.id := by
  obtain ⟨hlt, -⟩ := List.get?_eq_some.mp h2
  simp only [getTaskIdByNumber]
  rw [if_neg (by omega), h2]
  rfl

/-- C5: a chat `completeTask` action whose coalesced task number is out of
range (larger than the current task count, or not positive) appends the
"Invalid task number" warning and returns: no request is issued, nothing is
re-rendered, and the state — in particular every task's `completed` flag —
is unchanged. -/
theorem completeTask_out_of_range_no_mutation (st : ClientState) (o : ServerOracle)
    (tn tid : Option Int) (n : Int) (hn : jsOrNum tn tid = some n)
    (hout : (st.tasks.length : Int) < n ∨ n ≤ 0) :
    handleChatAction (ChatAction.completeTask tn tid) o st =
      (st, Trace.mk [] [] [invalidTaskMsg] []) := by
  have hid := getTaskIdByNumber_out_of_range st.tasks n hout
  simp [handleChatAction, hn, hid]

theorem completeTask_out_of_range_no_mutation_witness :
    jsOrNum (some 2) Option.none = some 2 ∧
    ((sampleState.tasks.length : Int) < 2 ∨ (2 : Int) ≤ 0) ∧
    handleChatAction (ChatAction.completeTask (some 2) Option.none) failOracle sampleState =
      (sampleState, Trace.mk [] [] [invalidTaskMsg] []) :=
  ⟨rfl, by left; decide,
   completeTask_out_of_range_no_mutation sampleState failOracle (some 2) Option.none 2 rfl
     (by left; decide)⟩

/-- C10: `getTaskIdByNumber` reports a found id through a value that
`handleChatAction` tests with JavaScript truthiness, so a real id equal to
`0` is indistinguishable from the `null` not-found result: for a task with
id `0` sitting at a valid display position, both the chat `completeTask`
and the chat `deleteTask` action append the "Invalid task number" warning
and perform no request and no state change, although the number is in
range. -/
theorem getTaskIdByNumber_zero_id_invalid (st : ClientState) (o : ServerOracle)
    (tn tid : Option Int) (n : Int) (t : Task) (hn : jsOrNum tn tid = some n)
    (h1 : 1 ≤ n) (hget : st.tasks.get? (n - 1).toNat = some t) (hid0 : t.id = 0) :
    handleChatAction (ChatAction.completeTask tn tid) o st =
      (st, Trace.mk [] [] [invalidTaskMsg] []) ∧
    handleChatAction (ChatAction.deleteTask tn tid) o st =
      (st, Trace.mk [] [] [invalidTaskMsg] []) := by
  have hid := getTaskIdByNumber_in_range st.tasks n t h1 hget
  rw [hid0] at hid
  constructor <;> simp [handleChatAction, hn, hid]

theorem getTaskIdByNumber_zero_id_invalid_witness :
    jsOrNum (some 1) Option.none = some 1 ∧ (1 : Int) ≤ 1 ∧
    (ClientState.mk [zeroIdTask] Option.none).tasks.get? ((1 : Int) - 1).toNat = some zeroIdTask ∧
    zeroIdTask.id = 0 ∧
    (handleChatAction (ChatAction.completeTask (some 1) Option.none) failOracle
        (ClientState.mk [zeroIdTask] Option.none) =
      (ClientState.mk [zeroIdTask] Option.none, Trace.mk [] [] [invalidTaskMsg] []) ∧
     handleChatAction (ChatAction.deleteTask (some 1) Option.none) failOracle
        (ClientState.mk [zeroIdTask] Option.none) =
      (ClientState.mk [zeroIdTask] Option.none, Trace.mk [] [] [invalidTaskMsg] [])) :=
  ⟨rfl, by decide, by decide, rfl,
   getTaskIdByNumber_zero_id_invalid (ClientState.mk [zeroIdTask] Option.none) failOracle
     (some 1) Option.none 1 zeroIdTask rfl (by decide) (by decide) rfl⟩

/-- C2 counterexample: the claim says a whitespace-only description never
reaches the network, but `addTask` tests `!description` without trimming,
so the chat action `addTask` with description `" "` (truthy in JavaScript)
issues the POST request. -/
theorem addTask_whitespace_chat_request_cex :
    (handleChatAction (ChatAction.addTask " " Option.none) failOracle sampleState).2.requests =
      [Request.postTask " " Option.none] := rfl

/-- C2 as amended: only the UI form trims before validating, so a blank or
whitespace-only UI description is rejected locally (toast, no request, no
state change); the shared `addTask` rejects locally exactly the empty
string; and any non-empty description handed to the chat `addTask` action —
whitespace-only ones included — issues the POST request. -/
theorem addTask_empty_description_local_reject :
    (∀ rawDesc date time resp st, jsTrim rawDesc = "" →
      addTaskFromUI rawDesc date time resp st =
        (st, Trace.mk [] ["Enter task description"] [] [])) ∧
    (∀ reminder resp st, addTask "" reminder resp st = (st, Trace.none)) ∧
    (∀ d reminder o st, d ≠ "" →
      (handleChatAction (ChatAction.addTask d reminder) o st).2.requests =
        [Request.postTask d reminder]) := by
  refine ⟨?_, ?_, ?_⟩
  · intro rawDesc date time resp st h
    simp [addTaskFromUI, h]
  · intro reminder resp st
    simp [addTask, Trace.none]
  · intro d reminder o st hd
    cases hp : o.post with
    | none => simp [handleChatAction, addTask, hd, hp, finishRender]
    | some r =>
      by_cases hr : r.ok <;>
        simp [handleChatAction, addTask, hd, hp, hr, finishRender]

theorem addTask_empty_description_local_reject_witness :
    jsTrim "  " = "" ∧
    addTaskFromUI "  " "" "" Option.none sampleState =
      (sampleState, Trace.mk [] ["Enter task description"] [] []) ∧
    addTask "" Option.none Option.none sampleState = (sampleState, Trace.none) ∧
    (" " ≠ "" ∧
      (handleChatAction (ChatAction.addTask " " Option.none) failOracle sampleState).2.requests =
        [Request.postTask " " Option.none]) :=
  ⟨by decide,
   addTask_empty_description_local_reject.1 "  " "" "" Option.none sampleState (by decide),
   addTask_empty_description_local_reject.2.1 Option.none Option.none sampleState,
   by decide,
   addTask_empty_description_local_reject.2.2 " " Option.none failOracle sampleState (by decide)⟩

/-- C1 counterexample: the claim says the list, calendar and counters are
re-rendered after every known chat action, including abandoned ones, but an
invalid task number makes `handleChatAction` return before the render tail:
here `completeTask` with number `2` against a one-task state produces the
warning and no render at all. -/
theorem handleChatAction_abandoned_no_render_cex :
    knownFn (ChatAction.completeTask (some 2) Option.none) = true ∧
    (handleChatAction (ChatAction.completeTask (some 2) Option.none) failOracle
      sampleState).2.renders = [] ∧
    (handleChatAction (ChatAction.completeTask (some 2) Option.none) failOracle
      sampleState).2.msgs = [invalidTaskMsg] := ⟨rfl, rfl, rfl⟩

/-- C1 as amended: after every chat action carrying one of the six known
function names the list, calendar and counters are re-rendered — except
when a `completeTask`/`deleteTask` action is abandoned because its resolved
id is falsy (out-of-range number, absent number, or a real id equal to
`0`), in which case the handler returns early with only the warning and no
re-render (the state is unchanged there). -/
theorem handleChatAction_renders_unless_abandoned (a : ChatAction) (o : ServerOracle)
    (st : ClientState) (hk : knownFn a = true) (hna : chatAbandoned a st = false) :
    ∃ rs, (handleChatAction a o st).2.renders =
      rs ++ [RenderEvent.list, RenderEvent.calendar, RenderEvent.overview] := by
  cases a with
  | plain r => simp [knownFn] at hk
  | unknown r => simp [knownFn] at hk
  | addTask d r =>
    exact ⟨(addTask d r o.post st).2.renders,
      by simp [handleChatAction, finishRender, renderAllEvents]⟩
  | viewTasks =>
    exact ⟨[], by simp [handleChatAction, finishRender, renderAllEvents]⟩
  | completeTask tn tid =>
    cases hn : jsOrNum tn tid with
    | none => simp [chatAbandoned, hn] at hna
    | some n =>
      cases hg : getTaskIdByNumber st.tasks n with
      | none => simp [chatAbandoned, hn, hg] at hna
      | some realId =>
        simp only [chatAbandoned, hn, hg] at hna
        have hne := ne_of_beq_false hna
        exact ⟨(toggleComplete realId o.patch st).2.renders,
          by simp [handleChatAction, hn, hg, hne, finishRender, renderAllEvents]⟩
  | deleteTask tn tid =>
    cases hn : jsOrNum tn tid with
    | none => simp [chatAbandoned, hn] at hna
    | some n =>
      cases hg : getTaskIdByNumber st.tasks n with
      | none => simp [chatAbandoned, hn, hg] at hna
      | some realId =>
        simp only [chatAbandoned, hn, hg] at hna
        have hne := ne_of_beq_false hna
        exact ⟨(deleteTask realId o.delete st).2.renders,
          by simp [handleChatAction, hn, hg, hne, finishRender, renderAllEvents]⟩
  | undoDelete =>
    exact ⟨(undoDelete o.undo st).2.renders,
      by simp [handleChatAction, finishRender, renderAllEvents]⟩
  | resetAll =>
    exact ⟨(resetTasks o.confirmReset o.reset st).2.renders,
      by simp [handleChatAction, finishRender, renderAllEvents]⟩

theorem handleChatAction_renders_unless_abandoned_witness :
    knownFn ChatAction.viewTasks = true ∧
    chatAbandoned ChatAction.viewTasks sampleState = false ∧
    ∃ rs, (handleChatAction ChatAction.viewTasks failOracle sampleState).2.renders =
      rs ++ [RenderEvent.list, RenderEvent.calendar, RenderEvent.overview] :=
  ⟨rfl, rfl,
   handleChatAction_renders_unless_abandoned ChatAction.viewTasks failOracle sampleState rfl rfl⟩

end TickTick
